import Mathlib

/-!
Shallow embedding of the video/playlist/dashboard controllers of the
express-starter repository (src/controllers/video.controller.js,
src/controllers/playlist.controller.js and the dashboard controller),
together with proofs of the behavioural claims about them.

Modelling conventions:
* MongoDB ObjectIds are canonical strings (`Oid := String`); the controllers
  only ever compare them through `.toString()` equality.
* The document store is an explicit `DB` record of lists, one list per
  collection; every controller function takes the state and returns the
  (possibly unchanged) state next to an `Except ApiError` result, mirroring
  `throw new ApiError(status, message)`.
* JavaScript string operations (`trim`, case-insensitive regex matching)
  are re-implemented over `List Char` so that the kernel can evaluate them.
* Query parameters arrive as `Option` values; `page` and `limit` are the
  already-parsed `parseInt` results (the source defaults them to 1 and 10
  when absent; non-numeric input is out of scope, as in the spec).
-/

/-- Characters of a JavaScript string after `String.prototype.trim`:
leading and trailing whitespace removed. -/
def trimChars (l : List Char) : List Char :=
  ((l.dropWhile Char.isWhitespace).reverse.dropWhile Char.isWhitespace).reverse

/-- JavaScript `s.trim()`. -/
def jsTrim (s : String) : String := ⟨trimChars s.data⟩

/-- Test for a contiguous sublist, used to model substring matching. -/
def hasSublist (need : List Char) : List Char → Bool
  | [] => need.isEmpty
  | c :: t => need.isPrefixOf (c :: t) || hasSublist need t

/-- Case-insensitive substring test: the model of
`{ $regex: query, $options: "i" }` applied to a stored text field
(the spec reads the regex as a plain substring match). -/
def containsCI (hay need : String) : Bool :=
  hasSublist (need.data.map Char.toLower) (hay.data.map Char.toLower)

/-- JavaScript truthiness of an optional string: `undefined` and the empty
string are falsy, every other string is truthy. -/
def strTruthy : Option String → Bool
  | none => false
  | some s => !(s == "")

/-- Hexadecimal digit test. -/
def isHexDigit (c : Char) : Bool :=
  c.isDigit || (('a' ≤ c) && (c ≤ 'f')) || (('A' ≤ c) && (c ≤ 'F'))

/-- Model of mongoose `isValidObjectId` on strings: a 24-character
hexadecimal string, or any 12-character string. -/
def isValidObjectId (s : String) : Bool :=
  (s.length == 24 && s.data.all isHexDigit) || s.length == 12

/-- Model of `Math.ceil(a / b)` for natural `a` and positive natural `b`
(the operands are exact in floating point at realistic sizes). -/
def jsCeilDiv (a b : Nat) : Nat := (a + b - 1) / b

deriving instance DecidableEq for Except

/-- Error thrown by the controllers: `new ApiError(statusCode, message)`. -/
structure ApiError where
  statusCode : Nat
  message : String
deriving Repr, DecidableEq

/-- Canonical string form of a MongoDB ObjectId. -/
abbrev Oid := String

/-- Stored User document (user.model.js is outside the controller sources;
the field list follows the spec's data model: credentials and profile data
beyond the three projected fields exist on the document). -/
structure User where
  _id : Oid
  username : String
  email : String
  fullName : String
  avatar : String
  coverImage : String
  password : String
deriving Repr, DecidableEq

/-- Stored Video document. -/
structure Video where
  _id : Oid
  videoFile : String
  thumbnail : String
  title : String
  description : String
  duration : Nat
  views : Nat
  isPublished : Bool
  owner : Oid
  createdAt : Nat
deriving Repr, DecidableEq

/-- Stored Playlist document. The `name` and `description` fields are kept
as `Option String` because the controller can reach `Playlist.create` with
an absent body field (schema-level validation lives in playlist.model.js,
outside the sources under verification). -/
structure Playlist where
  _id : Oid
  name : Option String
  description : Option String
  owner : Oid
  videos : List Oid
deriving Repr, DecidableEq

/-- Stored Subscription document. -/
structure Subscription where
  _id : Oid
  subscriber : Oid
  channel : Oid
deriving Repr, DecidableEq

/-- Stored Like document: exactly one of the three target references is
set (polymorphic target). -/
structure Like where
  _id : Oid
  video : Option Oid
  comment : Option Oid
  tweet : Option Oid
  likedBy : Oid
deriving Repr, DecidableEq

/-- The document store: one list per collection. -/
structure DB where
  users : List User
  videos : List Video
  playlists : List Playlist
  subscriptions : List Subscription
  likes : List Like
deriving Repr, DecidableEq

/-- Model of `Video.findById` (and of `find?` against the videos
collection by `_id`). -/
def findVideo (db : DB) (videoId : String) : Option Video :=
  db.videos.find? (fun v => v._id == videoId)

/-- Model of `Playlist.findById`. -/
def findPlaylist (db : DB) (playlistId : String) : Option Playlist :=
  db.playlists.find? (fun p => p._id == playlistId)

/-- Model of `document.save()` on a playlist: the stored document with the
same `_id` is replaced by the in-memory one. -/
def savePlaylist (db : DB) (p : Playlist) : DB :=
  { db with playlists := db.playlists.map (fun q => if q._id == p._id then p else q) }

/-- Model of `document.save()` on a video. -/
def saveVideo (db : DB) (v : Video) : DB :=
  { db with videos := db.videos.map (fun w => if w._id == v._id then v else w) }

example : jsTrim "  x " = "x" := by decide

example : containsCI "Hello World" "o wor" = true := by decide

example : isValidObjectId "aaaaaaaaaaaaaaaaaaaaaaaa" = true := by decide

example : isValidObjectId "zz" = false := by decide

/-- Outcome classification of the blank-field check in `createPlaylist`:
the source tests `field?.trim() === ""`. Optional chaining makes the test
evaluate to `undefined === ""`, which is `false`, when the field is absent,
so an absent field does NOT count as blank here. -/
def fieldIsBlank : Option String → Bool
  | none => false
  | some s => jsTrim s == ""

/-- Model of the mongoose query `Playlist.findOne({ name, owner })` filter:
mongoose drops keys whose value is `undefined` from a query filter, so an
absent `name` constrains nothing. -/
def playlistNameOwnerMatch (name : Option String) (callerId : Oid) (p : Playlist) : Bool :=
  (match name with
   | some n => p.name == some n
   | none => true) && p.owner == callerId

/-- Model of `createPlaylist` (playlist.controller.js). The generated
ObjectId of the created document is passed in as `newId`. -/
def createPlaylist (db : DB) (callerId : Oid) (name description : Option String)
    (newId : Oid) : Except ApiError Playlist × DB :=
  if [name, description].any fieldIsBlank then
    (.error ⟨400, "All fields are required"⟩, db)
  else
    match db.playlists.find? (playlistNameOwnerMatch name callerId) with
    | some _ => (.error ⟨400, "Playlist with the same name already exists"⟩, db)
    | none =>
      let newPlaylist : Playlist :=
        { _id := newId, name := name, description := description,
          owner := callerId, videos := [] }
      (.ok newPlaylist, { db with playlists := db.playlists ++ [newPlaylist] })

/-- Model of `addVideoToPlaylist` (playlist.controller.js). The
authenticated caller is threaded in, faithfully unused: this handler
performs no ownership comparison before mutating the playlist. -/
def addVideoToPlaylist (db : DB) (callerId : Oid) (playlistId videoId : String) :
    Except ApiError Playlist × DB :=
  if !(isValidObjectId playlistId) || !(isValidObjectId videoId) then
    (.error ⟨400, "Invalid playlist ID or video ID"⟩, db)
  else
    match findPlaylist db playlistId with
    | none => (.error ⟨404, "Playlist not found"⟩, db)
    | some playlist =>
      if playlist.videos.contains videoId then
        (.error ⟨400, "Video already in playlist"⟩, db)
      else
        let updated := { playlist with videos := playlist.videos ++ [videoId] }
        (.ok updated, savePlaylist db updated)

/-- Model of `removeVideoFromPlaylist` (playlist.controller.js). Like the
add handler, it performs no ownership comparison. -/
def removeVideoFromPlaylist (db : DB) (callerId : Oid) (playlistId videoId : String) :
    Except ApiError Playlist × DB :=
  if !(isValidObjectId playlistId) || !(isValidObjectId videoId) then
    (.error ⟨400, "Invalid playlist ID or video ID"⟩, db)
  else
    match findPlaylist db playlistId with
    | none => (.error ⟨404, "Playlist not found"⟩, db)
    | some playlist =>
      if !(playlist.videos.contains videoId) then
        (.error ⟨400, "Video not found in playlist"⟩, db)
      else
        let updated :=
          { playlist with videos := playlist.videos.filter (fun vid => !(vid == videoId)) }
        (.ok updated, savePlaylist db updated)

/-- Model of `deletePlaylist` (playlist.controller.js). -/
def deletePlaylist (db : DB) (callerId : Oid) (playlistId : String) :
    Except ApiError Unit × DB :=
  if !(isValidObjectId playlistId) then
    (.error ⟨400, "Invalid playlist ID"⟩, db)
  else
    match findPlaylist db playlistId with
    | none => (.error ⟨404, "Playlist not found"⟩, db)
    | some playlist =>
      if !(playlist.owner == callerId) then
        (.error ⟨403, "You are not authorized to delete this playlist"⟩, db)
      else
        (.ok (), { db with playlists := db.playlists.eraseP (fun p => p._id == playlistId) })

/-- Model of `updatePlaylist` (playlist.controller.js). -/
def updatePlaylist (db : DB) (callerId : Oid) (playlistId : String)
    (name description : Option String) : Except ApiError Playlist × DB :=
  if !(isValidObjectId playlistId) then
    (.error ⟨400, "Invalid playlist ID"⟩, db)
  else if !(strTruthy name) && !(strTruthy description) then
    (.error ⟨400, "At least one field (name or description) is required"⟩, db)
  else if name.isSome && jsTrim (name.getD "") == "" then
    (.error ⟨400, "Name cannot be empty"⟩, db)
  else if description.isSome && jsTrim (description.getD "") == "" then
    (.error ⟨400, "Description cannot be empty"⟩, db)
  else
    match findPlaylist db playlistId with
    | none => (.error ⟨404, "Playlist not found"⟩, db)
    | some playlist =>
      if !(playlist.owner == callerId) then
        (.error ⟨403, "You are not authorized to update this playlist"⟩, db)
      else
        let updated :=
          { playlist with
            name := if strTruthy name then name else playlist.name,
            description := if strTruthy description then description else playlist.description }
        (.ok updated, savePlaylist db updated)

/-- Owner sub-document produced by the `$lookup` sub-pipeline
`{ $project: { fullName: 1, username: 1, avatar: 1 } }`, rendered as a
field-name/value association list. MongoDB `$project` in inclusion mode
keeps `_id` unless it is explicitly suppressed, so the projected document
has four fields. -/
def projectOwnerDoc (u : User) : List (String × String) :=
  [("_id", u._id), ("fullName", u.fullName), ("username", u.username), ("avatar", u.avatar)]

/-- Video document as shaped by the feed aggregation: the `owner` ObjectId
has been replaced by `$first` of the looked-up, projected user documents. -/
structure FeedVideo where
  _id : Oid
  videoFile : String
  thumbnail : String
  title : String
  description : String
  duration : Nat
  views : Nat
  isPublished : Bool
  createdAt : Nat
  owner : Option (List (String × String))
deriving Repr, DecidableEq

/-- Result of the `$lookup` + `$addFields { owner: { $first: "$owner" } }`
stages for one video. -/
def enrichOwner (db : DB) (v : Video) : FeedVideo :=
  { _id := v._id, videoFile := v.videoFile, thumbnail := v.thumbnail,
    title := v.title, description := v.description, duration := v.duration,
    views := v.views, isPublished := v.isPublished, createdAt := v.createdAt,
    owner := ((db.users.filter (fun u => u._id == v.owner)).map projectOwnerDoc).head? }

/-- Match conditions of the public feed: optional case-insensitive text
search over title or description, optional owner filter, and the
unconditional `isPublished: true`. -/
def videoMatches (query : Option String) (uid : Option Oid) (v : Video) : Bool :=
  (match query with
   | some s => containsCI v.title s || containsCI v.description s
   | none => true)
  && (match uid with
      | some u => v.owner == u
      | none => true)
  && v.isPublished

/-- Numeric sort key for `sortOptions[sortBy]`. Only the claims that are
independent of the ordering are proved below, so string-valued fields are
abstracted to a constant key; any relation yields the same membership and
length facts. -/
def feedSortKey (field : String) (v : FeedVideo) : Int :=
  if field == "views" then (v.views : Int)
  else if field == "duration" then (v.duration : Int)
  else if field == "createdAt" then (v.createdAt : Int)
  else 0

/-- Sort stage of the public feed: `sortBy`/`sortType` when both are
truthy, otherwise `createdAt` descending. -/
def sortFeedVideos (sortBy sortType : Option String) (l : List FeedVideo) : List FeedVideo :=
  if strTruthy sortBy && strTruthy sortType then
    (if sortType.getD "" == "desc" then
      l.insertionSort (fun a b => feedSortKey (sortBy.getD "") b ≤ feedSortKey (sortBy.getD "") a)
    else
      l.insertionSort (fun a b => feedSortKey (sortBy.getD "") a ≤ feedSortKey (sortBy.getD "") b))
  else
    l.insertionSort (fun a b => b.createdAt ≤ a.createdAt)

/-- Query parameters of `GET /videos`. -/
structure VideoQuery where
  page : Option Nat
  limit : Option Nat
  query : Option String
  sortBy : Option String
  sortType : Option String
  userId : Option String
deriving Repr, DecidableEq

/-- Pagination metadata block returned by the paged listings. -/
structure Pagination where
  currentPage : Nat
  totalPages : Nat
  totalVideos : Nat
  limit : Nat
deriving Repr, DecidableEq

/-- Payload of `getAllVideos`. -/
structure FeedResult where
  videos : List FeedVideo
  pagination : Pagination
deriving Repr, DecidableEq

/-- Model of `getAllVideos` (video.controller.js): match, user lookup,
sort, skip, limit, plus `countDocuments` over the same conditions. The
state is unchanged, so only the response is returned. -/
def getAllVideos (db : DB) (q : VideoQuery) : Except ApiError FeedResult :=
  let page := q.page.getD 1
  let limit := q.limit.getD 10
  let query := if strTruthy q.query then q.query else none
  if strTruthy q.userId && !(isValidObjectId (q.userId.getD "")) then
    .error ⟨400, "Invalid user ID"⟩
  else
    let uid := if strTruthy q.userId then q.userId else none
    let skip := (page - 1) * limit
    let matched := db.videos.filter (videoMatches query uid)
    let sorted := sortFeedVideos q.sortBy q.sortType (matched.map (enrichOwner db))
    let items := (sorted.drop skip).take limit
    let totalVideos := (db.videos.filter (videoMatches query uid)).length
    .ok { videos := items,
          pagination :=
            { currentPage := page, totalPages := jsCeilDiv totalVideos limit,
              totalVideos := totalVideos, limit := limit } }

/-- Model of `getVideoById` (video.controller.js): aggregation by `_id`
with the owner lookup, a 404 on the empty result, then
`findByIdAndUpdate(videoId, { $inc: { views: 1 } })`. The response carries
the document as read, that is, with the pre-increment view count. -/
def getVideoById (db : DB) (videoId : String) : Except ApiError FeedVideo × DB :=
  if !(isValidObjectId videoId) then
    (.error ⟨400, "Invalid video ID"⟩, db)
  else
    match (db.videos.filter (fun v => v._id == videoId)).map (enrichOwner db) with
    | [] => (.error ⟨404, "Video not found"⟩, db)
    | first :: _ =>
      let db' :=
        { db with
          videos := db.videos.map (fun w =>
            if w._id == videoId then { w with views := w.views + 1 } else w) }
      (.ok first, db')

/-- Application of the `$set` document built by `updateVideo` to a stored
video. -/
def applyVideoSet (title description thumbnail : Option String) (w : Video) : Video :=
  { w with
    title := title.getD w.title,
    description := description.getD w.description,
    thumbnail := thumbnail.getD w.thumbnail }

/-- Model of `updateVideo` (video.controller.js). The optional thumbnail
upload is `file`: `none` models no `req.file`; `some none` models an
upload attempt that the media service failed (the 500 path); `some (some
url)` models a successful upload returning `url`. -/
def updateVideo (db : DB) (callerId : Oid) (videoId : String)
    (title description : Option String) (file : Option (Option String)) :
    Except ApiError Video × DB :=
  if !(isValidObjectId videoId) then
    (.error ⟨400, "Invalid video ID"⟩, db)
  else if !(strTruthy title) && !(strTruthy description) && !(file.isSome) then
    (.error ⟨400, "At least one field is required to update"⟩, db)
  else
    match findVideo db videoId with
    | none => (.error ⟨404, "Video not found"⟩, db)
    | some video =>
      if !(video.owner == callerId) then
        (.error ⟨403, "You are not authorized to update this video"⟩, db)
      else
        let titleField := if strTruthy title then title else none
        let descriptionField := if strTruthy description then description else none
        match file with
        | some none => (.error ⟨500, "Failed to upload thumbnail"⟩, db)
        | fileResult =>
          let thumbField := fileResult.bind (fun r => r)
          let db' :=
            { db with
              videos := db.videos.map (fun w =>
                if w._id == videoId then applyVideoSet titleField descriptionField thumbField w
                else w) }
          (.ok (applyVideoSet titleField descriptionField thumbField video), db')

/-- Model of `deleteVideo` (video.controller.js). -/
def deleteVideo (db : DB) (callerId : Oid) (videoId : String) :
    Except ApiError Unit × DB :=
  if !(isValidObjectId videoId) then
    (.error ⟨400, "Invalid video ID"⟩, db)
  else
    match findVideo db videoId with
    | none => (.error ⟨404, "Video not found"⟩, db)
    | some video =>
      if !(video.owner == callerId) then
        (.error ⟨403, "You are not authorized to delete this video"⟩, db)
      else
        (.ok (), { db with videos := db.videos.eraseP (fun w => w._id == videoId) })

/-- Model of `togglePublishStatus` (video.controller.js): flip the flag on
the loaded document, save it, and report a message computed from the new
value of the flag. -/
def togglePublishStatus (db : DB) (callerId : Oid) (videoId : String) :
    Except ApiError (Video × String) × DB :=
  if !(isValidObjectId videoId) then
    (.error ⟨400, "Invalid video ID"⟩, db)
  else
    match findVideo db videoId with
    | none => (.error ⟨404, "Video not found"⟩, db)
    | some video =>
      if !(video.owner == callerId) then
        (.error ⟨403, "You are not authorized to change this video\x27s publish status"⟩, db)
      else
        let updated := { video with isPublished := !video.isPublished }
        let message :=
          "Video " ++ (if updated.isPublished then "published" else "unpublished")
            ++ " successfully!"
        (.ok (updated, message), saveVideo db updated)

/-- Channel stats payload of the dashboard controller. -/
structure ChannelStats where
  totalSubscribers : Nat
  totalVideos : Nat
  totalViews : Nat
  totalLikes : Nat
deriving Repr, DecidableEq

/-- Number of rows a single Like document contributes after the
`$lookup`(videos) + `$unwind` + `$match`(owner) stages of the likes
pipeline in `getChannelStats`: one row per stored video matching the
like's `video` reference and owned by the channel. -/
def likeOwnedRows (db : DB) (channelId : Oid) (l : Like) : Nat :=
  let videoDetails : List Video :=
    match l.video with
    | some vid => db.videos.filter (fun v => v._id == vid)
    | none => []
  (videoDetails.filter (fun v => v.owner == channelId)).length

/-- Model of `getChannelStats` (dashboard controller). The two `$group`
stages produce no row at all when their input is empty, which the source
reads back with `stats[0]?.field || 0`; that is the `Option` below. -/
def getChannelStats (db : DB) (channelId : Oid) : ChannelStats :=
  let totalSubscribers := (db.subscriptions.filter (fun s => s.channel == channelId)).length
  let owned := db.videos.filter (fun v => v.owner == channelId)
  let videoStats : Option (Nat × Nat) :=
    match owned with
    | [] => none
    | _ => some (owned.length, (owned.map Video.views).sum)
  let likeRows := (db.likes.map (likeOwnedRows db channelId)).sum
  let likesStats : Option Nat := if likeRows == 0 then none else some likeRows
  { totalSubscribers := totalSubscribers,
    totalVideos := (videoStats.map Prod.fst).getD 0,
    totalViews := (videoStats.map Prod.snd).getD 0,
    totalLikes := likesStats.getD 0 }

/-- Channel video document as shaped by the dashboard aggregation: the
looked-up `likes` array is projected away, only its size remains. -/
structure ChannelVideo where
  _id : Oid
  videoFile : String
  thumbnail : String
  title : String
  description : String
  duration : Nat
  views : Nat
  isPublished : Bool
  owner : Oid
  createdAt : Nat
  likesCount : Nat
deriving Repr, DecidableEq

/-- Result of the `$lookup`(likes) + `$addFields likesCount` +
`$project { likes: 0 }` stages for one video. -/
def withLikesCount (db : DB) (v : Video) : ChannelVideo :=
  { _id := v._id, videoFile := v.videoFile, thumbnail := v.thumbnail,
    title := v.title, description := v.description, duration := v.duration,
    views := v.views, isPublished := v.isPublished, owner := v.owner,
    createdAt := v.createdAt,
    likesCount := (db.likes.filter (fun l => l.video == some v._id)).length }

/-- Numeric sort key for the dashboard listing, like `feedSortKey`. -/
def channelSortKey (field : String) (v : ChannelVideo) : Int :=
  if field == "views" then (v.views : Int)
  else if field == "duration" then (v.duration : Int)
  else if field == "createdAt" then (v.createdAt : Int)
  else if field == "likesCount" then (v.likesCount : Int)
  else 0

/-- Payload of `getChannelVideos`. -/
structure ChannelFeedResult where
  videos : List ChannelVideo
  pagination : Pagination
deriving Repr, DecidableEq

/-- Model of `getChannelVideos` (dashboard controller): the caller's own
videos with per-video like counts, sorted, skipped and limited, plus
`countDocuments({ owner: channelId })`. `sortBy` and `sortType` default to
`createdAt`/`desc` by parameter destructuring. -/
def getChannelVideos (db : DB) (channelId : Oid) (page limit : Option Nat)
    (sortBy sortType : Option String) : ChannelFeedResult :=
  let page := page.getD 1
  let limit := limit.getD 10
  let sb := sortBy.getD "createdAt"
  let st := sortType.getD "desc"
  let skip := (page - 1) * limit
  let owned := db.videos.filter (fun v => v.owner == channelId)
  let enriched := owned.map (withLikesCount db)
  let sorted :=
    if st == "desc" then
      enriched.insertionSort (fun a b => channelSortKey sb b ≤ channelSortKey sb a)
    else
      enriched.insertionSort (fun a b => channelSortKey sb a ≤ channelSortKey sb b)
  let items := (sorted.drop skip).take limit
  let totalVideos := (db.videos.filter (fun v => v.owner == channelId)).length
  { videos := items,
    pagination :=
      { currentPage := page, totalPages := jsCeilDiv totalVideos limit,
        totalVideos := totalVideos, limit := limit } }

/-- One request against the modelled controllers, with the authenticated
caller (where the route is auth-gated) and all request data explicit. -/
inductive Op where
  | opGetAllVideos (q : VideoQuery)
  | opGetVideoById (videoId : String)
  | opUpdateVideo (callerId : Oid) (videoId : String)
      (title description : Option String) (file : Option (Option String))
  | opDeleteVideo (callerId : Oid) (videoId : String)
  | opTogglePublishStatus (callerId : Oid) (videoId : String)
  | opCreatePlaylist (callerId : Oid) (name description : Option String) (newId : Oid)
  | opUpdatePlaylist (callerId : Oid) (playlistId : String) (name description : Option String)
  | opDeletePlaylist (callerId : Oid) (playlistId : String)
  | opAddVideoToPlaylist (callerId : Oid) (playlistId videoId : String)
  | opRemoveVideoFromPlaylist (callerId : Oid) (playlistId videoId : String)
  | opGetChannelStats (callerId : Oid)
  | opGetChannelVideos (callerId : Oid) (page limit : Option Nat) (sortBy sortType : Option String)
deriving Repr, DecidableEq

/-- State reached after serving one request: the `DB` component of the
corresponding controller model (read-only handlers leave it unchanged). -/
def applyOp (op : Op) (db : DB) : DB :=
  match op with
  | .opGetAllVideos _ => db
  | .opGetVideoById videoId => (getVideoById db videoId).2
  | .opUpdateVideo c vid t d f => (updateVideo db c vid t d f).2
  | .opDeleteVideo c vid => (deleteVideo db c vid).2
  | .opTogglePublishStatus c vid => (togglePublishStatus db c vid).2
  | .opCreatePlaylist c n d newId => (createPlaylist db c n d newId).2
  | .opUpdatePlaylist c pid n d => (updatePlaylist db c pid n d).2
  | .opDeletePlaylist c pid => (deletePlaylist db c pid).2
  | .opAddVideoToPlaylist c pid vid => (addVideoToPlaylist db c pid vid).2
  | .opRemoveVideoFromPlaylist c pid vid => (removeVideoFromPlaylist db c pid vid).2
  | .opGetChannelStats _ => db
  | .opGetChannelVideos _ _ _ _ _ => db

/-! Shared test fixtures used as concrete inputs by witnesses and
counterexamples below. -/

/-- Fixture user. -/
def alice : User :=
  { _id := "aaaaaaaaaaaaaaaaaaaaaaaa", username := "alice", email := "alice@mail.com",
    fullName := "Alice A", avatar := "http://img/a.png", coverImage := "http://img/ca.png",
    password := "hashed-secret" }

/-- Fixture published video owned by `alice`. -/
def vid1 : Video :=
  { _id := "11111111111111111111111e", videoFile := "f1", thumbnail := "t1",
    title := "Lean tutorial", description := "about proofs", duration := 10,
    views := 5, isPublished := true, owner := "aaaaaaaaaaaaaaaaaaaaaaaa", createdAt := 100 }

/-- Fixture unpublished video owned by `alice`. -/
def vid2 : Video :=
  { _id := "22222222222222222222222e", videoFile := "f2", thumbnail := "t2",
    title := "Secret draft", description := "hidden", duration := 7,
    views := 2, isPublished := false, owner := "aaaaaaaaaaaaaaaaaaaaaaaa", createdAt := 200 }

/-- Fixture playlist owned by `alice`, containing `vid1`. -/
def pl1 : Playlist :=
  { _id := "dddddddddddddddddddddddd", name := some "Favorites", description := some "x",
    owner := "aaaaaaaaaaaaaaaaaaaaaaaa", videos := ["11111111111111111111111e"] }

/-- Fixture store. -/
def baseDb : DB :=
  { users := [alice], videos := [vid1, vid2], playlists := [pl1],
    subscriptions := [], likes := [] }

/-- Query with every parameter absent. -/
def emptyQuery : VideoQuery :=
  { page := none, limit := none, query := none, sortBy := none, sortType := none, userId := none }

/-! Helper lemmas about the list-level building blocks. -/

/-- Finding the first element of a filtered list is `find?`. -/
theorem head?_filter_eq_find? (p : α → Bool) (l : List α) :
    (l.filter p).head? = l.find? p := by
  induction l with
  | nil => rfl
  | cons a t ih =>
    by_cases h : p a = true
    · simp [List.filter_cons, List.find?, h]
    · simp only [Bool.not_eq_true] at h
      simp [List.filter_cons, List.find?, h, ih]

/-- Mapping a function that preserves the `_id` field commutes with the
by-id `find?` against the videos collection. -/
theorem find?_map_preserves_id (f : Video → Video) (hf : ∀ w, (f w)._id = w._id)
    (l : List Video) (i : String) :
    (l.map f).find? (fun w => w._id == i) = (l.find? (fun w => w._id == i)).map f := by
  induction l with
  | nil => rfl
  | cons a t ih =>
    by_cases h : (a._id == i) = true
    · simp [List.find?, h, hf]
    · simp only [Bool.not_eq_true] at h
      simp [List.find?, h, hf, ih]

/-- Membership in the sorted feed is membership in its input. -/
theorem mem_sortFeedVideos {a : FeedVideo} (sortBy sortType : Option String)
    (l : List FeedVideo) : a ∈ sortFeedVideos sortBy sortType l ↔ a ∈ l := by
  unfold sortFeedVideos
  split
  · split <;> exact List.mem_insertionSort _
  · exact List.mem_insertionSort _

/-- Length of the sorted feed. -/
theorem length_sortFeedVideos (sortBy sortType : Option String) (l : List FeedVideo) :
    (sortFeedVideos sortBy sortType l).length = l.length := by
  unfold sortFeedVideos
  split
  · split <;> exact List.length_insertionSort _ _
  · exact List.length_insertionSort _ _

/-- The match conditions of the public feed require the publish flag. -/
theorem videoMatches_published {query : Option String} {uid : Option Oid} {v : Video}
    (h : videoMatches query uid v = true) : v.isPublished = true := by
  unfold videoMatches at h
  simp only [Bool.and_eq_true] at h
  exact h.2

/-- C2: for every combination of query, userId, sortBy, sortType, page and
limit parameters, every video in a successful `getAllVideos` response has
`isPublished = true`; an unpublished video is never in the returned list. -/
theorem getAllVideos_never_returns_unpublished (db : DB) (q : VideoQuery)
    (res : FeedResult) (hres : getAllVideos db q = .ok res) :
    ∀ item ∈ res.videos, item.isPublished = true := by
  intro item hmem
  simp only [getAllVideos] at hres
  split at hres
  · exact absurd hres (by simp)
  · simp only [Except.ok.injEq] at hres
    subst hres
    have h1 := List.mem_of_mem_take hmem
    have h2 := List.mem_of_mem_drop h1
    rw [mem_sortFeedVideos] at h2
    obtain ⟨v, hv, rfl⟩ := List.mem_map.mp h2
    exact videoMatches_published (List.mem_filter.mp hv).2

/-- Feed item produced by `getAllVideos baseDb emptyQuery`. -/
def baseFeedItem : FeedVideo :=
  { _id := "11111111111111111111111e", videoFile := "f1", thumbnail := "t1",
    title := "Lean tutorial", description := "about proofs", duration := 10,
    views := 5, isPublished := true, createdAt := 100,
    owner := some [("_id", "aaaaaaaaaaaaaaaaaaaaaaaa"), ("fullName", "Alice A"),
                   ("username", "alice"), ("avatar", "http://img/a.png")] }

/-- Response of `getAllVideos baseDb emptyQuery`: the unpublished `vid2`
is filtered out. -/
def baseFeedRes : FeedResult :=
  { videos := [baseFeedItem],
    pagination := { currentPage := 1, totalPages := 1, totalVideos := 1, limit := 10 } }

/-- Witness for C2 at a concrete store containing an unpublished video. -/
theorem getAllVideos_never_returns_unpublished_witness :
    getAllVideos baseDb emptyQuery = .ok baseFeedRes ∧
      ∀ item ∈ baseFeedRes.videos, item.isPublished = true :=
  ⟨by decide,
   getAllVideos_never_returns_unpublished baseDb emptyQuery baseFeedRes (by decide)⟩

/-- Keys of any owner sub-document produced by the lookup projection. -/
theorem enrichOwner_owner_keys (db : DB) (v : Video) (doc : List (String × String))
    (h : (enrichOwner db v).owner = some doc) :
    doc.map Prod.fst = ["_id", "fullName", "username", "avatar"] := by
  have h' : ((db.users.filter (fun u => u._id == v.owner)).head?).map projectOwnerDoc
      = some doc := by
    rw [← List.head?_map]; exact h
  obtain ⟨u, _, hdoc⟩ := Option.map_eq_some'.mp h'
  subst hdoc
  rfl

/-- C4 (amended): every owner sub-object returned by the public feed and
by fetch-by-id carries exactly the fields `_id`, `fullName`, `username`
and `avatar`, in this order; `_id` is kept because an inclusion-mode
`$project` retains it unless explicitly suppressed as `_id: 0`. No further
user field (email, password, cover image, ...) appears. -/
theorem feed_owner_projection_fields :
    (∀ (db : DB) (q : VideoQuery) (res : FeedResult), getAllVideos db q = .ok res →
      ∀ item ∈ res.videos, ∀ doc, item.owner = some doc →
        doc.map Prod.fst = ["_id", "fullName", "username", "avatar"]) ∧
    (∀ (db : DB) (videoId : String) (item : FeedVideo),
      (getVideoById db videoId).1 = .ok item →
      ∀ doc, item.owner = some doc →
        doc.map Prod.fst = ["_id", "fullName", "username", "avatar"]) := by
  constructor
  · intro db q res hres item hmem doc hdoc
    simp only [getAllVideos] at hres
    split at hres
    · exact absurd hres (by simp)
    · simp only [Except.ok.injEq] at hres
      subst hres
      have h2 := List.mem_of_mem_drop (List.mem_of_mem_take hmem)
      rw [mem_sortFeedVideos] at h2
      obtain ⟨v, _, rfl⟩ := List.mem_map.mp h2
      exact enrichOwner_owner_keys db v doc hdoc
  · intro db videoId item hres doc hdoc
    simp only [getVideoById] at hres
    split at hres
    · exact absurd hres (by simp)
    · split at hres
      · exact absurd hres (by simp)
      · next first rest heq =>
        simp only [Except.ok.injEq] at hres
        subst hres
        have hfm : first ∈ (db.videos.filter (fun v => v._id == videoId)).map
            (enrichOwner db) := by
          rw [heq]; exact List.mem_cons_self _ _
        obtain ⟨v, _, rfl⟩ := List.mem_map.mp hfm
        exact enrichOwner_owner_keys db v doc hdoc

/-- Owner sub-document of `alice` as produced by the projection. -/
def ownerDocAlice : List (String × String) :=
  [("_id", "aaaaaaaaaaaaaaaaaaaaaaaa"), ("fullName", "Alice A"),
   ("username", "alice"), ("avatar", "http://img/a.png")]

/-- Counterexample to C4 as stated: at a concrete store, the owner
sub-object returned by the public feed carries the field `_id` — a field
of the owning User beyond fullName, username and avatar — so its field
list is not exactly `fullName, username, avatar`. -/
theorem feed_owner_projection_counterexample :
    getAllVideos baseDb emptyQuery = .ok baseFeedRes ∧
    baseFeedItem ∈ baseFeedRes.videos ∧
    baseFeedItem.owner = some ownerDocAlice ∧
    ("_id", alice._id) ∈ ownerDocAlice ∧
    "_id" ∉ (["fullName", "username", "avatar"] : List String) ∧
    ownerDocAlice.map Prod.fst ≠ ["fullName", "username", "avatar"] := by
  decide

/-- Witness for the amended C4 at a concrete store. -/
theorem feed_owner_projection_fields_witness :
    baseFeedItem.owner = some ownerDocAlice ∧
    ownerDocAlice.map Prod.fst = ["_id", "fullName", "username", "avatar"] :=
  ⟨by decide,
   feed_owner_projection_fields.1 baseDb emptyQuery baseFeedRes (by decide)
     baseFeedItem (by decide) ownerDocAlice (by decide)⟩

/-- Sorting an empty feed yields an empty feed. -/
theorem sortFeedVideos_nil (a b : Option String) : sortFeedVideos a b [] = [] := by
  unfold sortFeedVideos
  split
  · split <;> rfl
  · rfl

/-- C5: with `page` and `limit` defaulting to 1 and 10 when absent and
assumed positive (the source leaves non-positive values unspecified), both
paged listings report `currentPage = page`, `limit = limit`,
`totalPages = ceil(totalCount / limit)` (stated with Mathlib ceiling
division), and return a slice of length
`min(limit, totalCount - (page-1)*limit)` (truncated subtraction is
`max 0` of the integer difference); `totalCount = 0` gives
`totalPages = 0` and an empty list, and a well-formed request never
errors. -/
theorem pagination_metadata_correct :
    (∀ (db : DB) (q : VideoQuery) (res : FeedResult),
      getAllVideos db q = .ok res →
      1 ≤ q.page.getD 1 → 1 ≤ q.limit.getD 10 →
      res.pagination.currentPage = q.page.getD 1 ∧
      res.pagination.limit = q.limit.getD 10 ∧
      res.pagination.totalPages = res.pagination.totalVideos ⌈/⌉ q.limit.getD 10 ∧
      res.videos.length =
        min (q.limit.getD 10)
          (res.pagination.totalVideos - (q.page.getD 1 - 1) * q.limit.getD 10) ∧
      (res.pagination.totalVideos = 0 →
        res.pagination.totalPages = 0 ∧ res.videos = [])) ∧
    (∀ (db : DB) (q : VideoQuery),
      (strTruthy q.userId = true → isValidObjectId (q.userId.getD "") = true) →
      ∃ res, getAllVideos db q = .ok res) ∧
    (∀ (db : DB) (c : Oid) (page limit : Option Nat) (sortBy sortType : Option String),
      1 ≤ page.getD 1 → 1 ≤ limit.getD 10 →
      (getChannelVideos db c page limit sortBy sortType).pagination.currentPage
          = page.getD 1 ∧
      (getChannelVideos db c page limit sortBy sortType).pagination.limit
          = limit.getD 10 ∧
      (getChannelVideos db c page limit sortBy sortType).pagination.totalPages
          = (getChannelVideos db c page limit sortBy sortType).pagination.totalVideos
              ⌈/⌉ limit.getD 10 ∧
      (getChannelVideos db c page limit sortBy sortType).videos.length =
        min (limit.getD 10)
          ((getChannelVideos db c page limit sortBy sortType).pagination.totalVideos
            - (page.getD 1 - 1) * limit.getD 10) ∧
      ((getChannelVideos db c page limit sortBy sortType).pagination.totalVideos = 0 →
        (getChannelVideos db c page limit sortBy sortType).pagination.totalPages = 0 ∧
        (getChannelVideos db c page limit sortBy sortType).videos = [])) := by
  refine ⟨?_, ?_, ?_⟩
  · intro db q res hres hpage hlimit
    simp only [getAllVideos] at hres
    split at hres
    · exact absurd hres (by simp)
    · simp only [Except.ok.injEq] at hres
      subst hres
      refine ⟨rfl, rfl, rfl, ?_, ?_⟩
      · simp [List.length_take, List.length_drop, length_sortFeedVideos, List.length_map]
      · intro h0
        dsimp only at h0 ⊢
        rw [List.length_eq_zero] at h0
        constructor
        · simp only [h0, List.length_nil, jsCeilDiv]
          exact Nat.div_eq_of_lt (by omega)
        · simp [h0, sortFeedVideos_nil]
  · intro db q hok
    simp only [getAllVideos]
    split
    · next hcond =>
      rw [Bool.and_eq_true] at hcond
      have := hok hcond.1
      simp [this] at hcond
    · exact ⟨_, rfl⟩
  · intro db c page limit sortBy sortType hpage hlimit
    refine ⟨rfl, rfl, rfl, ?_, ?_⟩
    · simp only [getChannelVideos]
      split <;>
        simp [List.length_take, List.length_drop, List.length_insertionSort,
          List.length_map]
    · intro h0
      have h0' : (db.videos.filter (fun v => v.owner == c)).length = 0 := h0
      have hnil : db.videos.filter (fun v => v.owner == c) = [] :=
        List.length_eq_zero.mp h0'
      constructor
      · have htp : (getChannelVideos db c page limit sortBy sortType).pagination.totalPages
            = jsCeilDiv (db.videos.filter (fun v => v.owner == c)).length
                (limit.getD 10) := rfl
        rw [htp, h0']
        simp only [jsCeilDiv]
        exact Nat.div_eq_of_lt (by omega)
      · have hlen : (getChannelVideos db c page limit sortBy sortType).videos.length = 0 := by
          simp only [getChannelVideos]
          split <;>
            simp [List.length_take, List.length_drop, List.length_insertionSort,
              List.length_map, hnil]
        exact List.length_eq_zero.mp hlen

/-- Query asking for page 2 with limit 1. -/
def pagedQuery : VideoQuery :=
  { page := some 2, limit := some 1, query := none, sortBy := none,
    sortType := none, userId := none }

/-- Response of `getAllVideos baseDb pagedQuery`: one published video in
total, so page 2 of size 1 is empty. -/
def pagedRes : FeedResult :=
  { videos := [],
    pagination := { currentPage := 2, totalPages := 1, totalVideos := 1, limit := 1 } }

/-- Witness for C5 at concrete requests, one per conjunct of the claim. -/
theorem pagination_metadata_correct_witness :
    getAllVideos baseDb pagedQuery = .ok pagedRes ∧
    (pagedRes.pagination.currentPage = pagedQuery.page.getD 1 ∧
     pagedRes.pagination.limit = pagedQuery.limit.getD 10 ∧
     pagedRes.pagination.totalPages
        = pagedRes.pagination.totalVideos ⌈/⌉ pagedQuery.limit.getD 10 ∧
     pagedRes.videos.length =
       min (pagedQuery.limit.getD 10)
         (pagedRes.pagination.totalVideos
           - (pagedQuery.page.getD 1 - 1) * pagedQuery.limit.getD 10) ∧
     (pagedRes.pagination.totalVideos = 0 →
       pagedRes.pagination.totalPages = 0 ∧ pagedRes.videos = [])) ∧
    (∃ res, getAllVideos baseDb emptyQuery = .ok res) ∧
    ((getChannelVideos baseDb "cccccccccccccccccccccccc" none none none none).pagination.currentPage
        = (none : Option Nat).getD 1 ∧
     (getChannelVideos baseDb "cccccccccccccccccccccccc" none none none none).pagination.limit
        = (none : Option Nat).getD 10 ∧
     (getChannelVideos baseDb "cccccccccccccccccccccccc" none none none none).pagination.totalPages
        = (getChannelVideos baseDb "cccccccccccccccccccccccc" none none none none).pagination.totalVideos
            ⌈/⌉ (none : Option Nat).getD 10 ∧
     (getChannelVideos baseDb "cccccccccccccccccccccccc" none none none none).videos.length =
       min ((none : Option Nat).getD 10)
         ((getChannelVideos baseDb "cccccccccccccccccccccccc" none none none none).pagination.totalVideos
           - ((none : Option Nat).getD 1 - 1) * (none : Option Nat).getD 10) ∧
     ((getChannelVideos baseDb "cccccccccccccccccccccccc" none none none none).pagination.totalVideos = 0 →
       (getChannelVideos baseDb "cccccccccccccccccccccccc" none none none none).pagination.totalPages = 0 ∧
       (getChannelVideos baseDb "cccccccccccccccccccccccc" none none none none).videos = [])) :=
  ⟨by decide,
   pagination_metadata_correct.1 baseDb pagedQuery pagedRes (by decide) (by decide) (by decide),
   pagination_metadata_correct.2.1 baseDb emptyQuery (by decide),
   pagination_metadata_correct.2.2 baseDb "cccccccccccccccccccccccc" none none none none
     (by decide) (by decide)⟩

/-- C3: adding a video already present fails with 400 "Video already in
playlist" and removing a video not present fails with 400 "Video not found
in playlist"; in both cases the store, hence the playlist's video list, is
returned unchanged, so neither redundant transition is a silent no-op. -/
theorem playlist_membership_rejects_redundant :
    (∀ (db : DB) (caller : Oid) (playlistId videoId : String) (p : Playlist),
      isValidObjectId playlistId = true → isValidObjectId videoId = true →
      findPlaylist db playlistId = some p →
      p.videos.contains videoId = true →
      addVideoToPlaylist db caller playlistId videoId =
        (.error ⟨400, "Video already in playlist"⟩, db)) ∧
    (∀ (db : DB) (caller : Oid) (playlistId videoId : String) (p : Playlist),
      isValidObjectId playlistId = true → isValidObjectId videoId = true →
      findPlaylist db playlistId = some p →
      p.videos.contains videoId = false →
      removeVideoFromPlaylist db caller playlistId videoId =
        (.error ⟨400, "Video not found in playlist"⟩, db)) := by
  constructor
  · intro db caller playlistId videoId p h1 h2 hfind hmem
    have hmem' : videoId ∈ p.videos := by simpa using hmem
    simp [addVideoToPlaylist, h1, h2, hfind, hmem']
  · intro db caller playlistId videoId p h1 h2 hfind hmem
    have hmem' : videoId ∉ p.videos := by simpa using hmem
    simp [removeVideoFromPlaylist, h1, h2, hfind, hmem']

/-- Witness for C3: duplicate add and absent remove on a concrete store. -/
theorem playlist_membership_rejects_redundant_witness :
    pl1.videos.contains vid1._id = true ∧
    addVideoToPlaylist baseDb alice._id pl1._id vid1._id =
      (.error ⟨400, "Video already in playlist"⟩, baseDb) ∧
    pl1.videos.contains "33333333333333333333333e" = false ∧
    removeVideoFromPlaylist baseDb alice._id pl1._id "33333333333333333333333e" =
      (.error ⟨400, "Video not found in playlist"⟩, baseDb) :=
  ⟨by decide,
   playlist_membership_rejects_redundant.1 baseDb alice._id pl1._id vid1._id pl1
     (by decide) (by decide) (by decide) (by decide),
   by decide,
   playlist_membership_rejects_redundant.2 baseDb alice._id pl1._id
     "33333333333333333333333e" pl1 (by decide) (by decide) (by decide) (by decide)⟩

/-- C1 (amended): the ownership guard — comparison of the resource's owner
identifier with the authenticated caller's identifier in canonical string
form — yields a 403 error and an unchanged store for video update, video
delete, publish toggle, playlist update and playlist delete, whenever the
request is otherwise well-formed enough to reach the guard; the playlist
add-video and remove-video handlers, however, perform no ownership check
at all and succeed (mutating the playlist) for any authenticated caller. -/
theorem owner_gate_403_on_owner_mismatch :
    (∀ (db : DB) (caller : Oid) (videoId : String) (t d : Option String)
        (f : Option (Option String)) (v : Video),
      isValidObjectId videoId = true →
      (strTruthy t || strTruthy d || f.isSome) = true →
      findVideo db videoId = some v →
      v.owner ≠ caller →
      updateVideo db caller videoId t d f =
        (.error ⟨403, "You are not authorized to update this video"⟩, db)) ∧
    (∀ (db : DB) (caller : Oid) (videoId : String) (v : Video),
      isValidObjectId videoId = true →
      findVideo db videoId = some v →
      v.owner ≠ caller →
      deleteVideo db caller videoId =
        (.error ⟨403, "You are not authorized to delete this video"⟩, db)) ∧
    (∀ (db : DB) (caller : Oid) (videoId : String) (v : Video),
      isValidObjectId videoId = true →
      findVideo db videoId = some v →
      v.owner ≠ caller →
      togglePublishStatus db caller videoId =
        (.error ⟨403, "You are not authorized to change this video\x27s publish status"⟩,
         db)) ∧
    (∀ (db : DB) (caller : Oid) (playlistId : String) (n d : Option String) (p : Playlist),
      isValidObjectId playlistId = true →
      (strTruthy n || strTruthy d) = true →
      (n.isSome && (jsTrim (n.getD "") == "")) = false →
      (d.isSome && (jsTrim (d.getD "") == "")) = false →
      findPlaylist db playlistId = some p →
      p.owner ≠ caller →
      updatePlaylist db caller playlistId n d =
        (.error ⟨403, "You are not authorized to update this playlist"⟩, db)) ∧
    (∀ (db : DB) (caller : Oid) (playlistId : String) (p : Playlist),
      isValidObjectId playlistId = true →
      findPlaylist db playlistId = some p →
      p.owner ≠ caller →
      deletePlaylist db caller playlistId =
        (.error ⟨403, "You are not authorized to delete this playlist"⟩, db)) ∧
    (∀ (db : DB) (caller : Oid) (playlistId videoId : String) (p : Playlist),
      isValidObjectId playlistId = true → isValidObjectId videoId = true →
      findPlaylist db playlistId = some p →
      p.videos.contains videoId = false →
      addVideoToPlaylist db caller playlistId videoId =
        (.ok { p with videos := p.videos ++ [videoId] },
         savePlaylist db { p with videos := p.videos ++ [videoId] })) ∧
    (∀ (db : DB) (caller : Oid) (playlistId videoId : String) (p : Playlist),
      isValidObjectId playlistId = true → isValidObjectId videoId = true →
      findPlaylist db playlistId = some p →
      p.videos.contains videoId = true →
      removeVideoFromPlaylist db caller playlistId videoId =
        (.ok { p with videos := p.videos.filter (fun vid => !(vid == videoId)) },
         savePlaylist db
           { p with videos := p.videos.filter (fun vid => !(vid == videoId)) })) := by
  refine ⟨?_, ?_, ?_, ?_, ?_, ?_, ?_⟩
  · intro db caller videoId t d f v h1 h2 hfind hown
    simp [updateVideo, h1, hfind, hown]
    intro ht hd
    simp [ht, hd] at h2
    exact Option.isSome_iff_ne_none.mp h2
  · intro db caller videoId v h1 hfind hown
    simp [deleteVideo, h1, hfind, hown]
  · intro db caller videoId v h1 hfind hown
    simp [togglePublishStatus, h1, hfind, hown]
  · intro db caller playlistId n d p h1 h2 h3 h4 hfind hown
    simp [updatePlaylist, h1, h2, h3, h4, hfind, hown]
    intro hn
    simpa [hn] using h2
  · intro db caller playlistId p h1 hfind hown
    simp [deletePlaylist, h1, hfind, hown]
  · intro db caller playlistId videoId p h1 h2 hfind hmem
    have hmem' : videoId ∉ p.videos := by simpa using hmem
    simp [addVideoToPlaylist, h1, h2, hfind, hmem']
  · intro db caller playlistId videoId p h1 h2 hfind hmem
    have hmem' : videoId ∈ p.videos := by simpa using hmem
    simp [removeVideoFromPlaylist, h1, h2, hfind, hmem']

/-- Identifier of a second authenticated user who owns nothing in
`baseDb`. -/
def bobId : Oid := "bbbbbbbbbbbbbbbbbbbbbbbb"

/-- Counterexample to C1 as stated: at a concrete store, a caller distinct
from the playlist's owner adds a video to, and removes a video from, the
playlist; both calls succeed and change the stored resource instead of
failing with 403. -/
theorem owner_gate_counterexample :
    findPlaylist baseDb pl1._id = some pl1 ∧
    pl1.owner = alice._id ∧
    alice._id ≠ bobId ∧
    (addVideoToPlaylist baseDb bobId pl1._id vid2._id).1 =
      .ok { pl1 with videos := pl1.videos ++ [vid2._id] } ∧
    (addVideoToPlaylist baseDb bobId pl1._id vid2._id).2 ≠ baseDb ∧
    findPlaylist (addVideoToPlaylist baseDb bobId pl1._id vid2._id).2 pl1._id
      = some { pl1 with videos := pl1.videos ++ [vid2._id] } ∧
    (removeVideoFromPlaylist baseDb bobId pl1._id vid1._id).1 =
      .ok { pl1 with videos := [] } ∧
    (removeVideoFromPlaylist baseDb bobId pl1._id vid1._id).2 ≠ baseDb := by
  decide

/-- Witness for the amended C1: the five guarded handlers refuse a
non-owner at a concrete store. -/
theorem owner_gate_403_on_owner_mismatch_witness :
    vid1.owner ≠ bobId ∧
    deleteVideo baseDb bobId vid1._id =
      (.error ⟨403, "You are not authorized to delete this video"⟩, baseDb) ∧
    togglePublishStatus baseDb bobId vid1._id =
      (.error ⟨403, "You are not authorized to change this video\x27s publish status"⟩,
       baseDb) ∧
    updatePlaylist baseDb bobId pl1._id (some "Stolen") none =
      (.error ⟨403, "You are not authorized to update this playlist"⟩, baseDb) ∧
    deletePlaylist baseDb bobId pl1._id =
      (.error ⟨403, "You are not authorized to delete this playlist"⟩, baseDb) ∧
    updateVideo baseDb bobId vid1._id (some "New title") none none =
      (.error ⟨403, "You are not authorized to update this video"⟩, baseDb) :=
  ⟨by decide,
   owner_gate_403_on_owner_mismatch.2.1 baseDb bobId vid1._id vid1
     (by decide) (by decide) (by decide),
   owner_gate_403_on_owner_mismatch.2.2.1 baseDb bobId vid1._id vid1
     (by decide) (by decide) (by decide),
   owner_gate_403_on_owner_mismatch.2.2.2.1 baseDb bobId pl1._id (some "Stolen") none pl1
     (by decide) (by decide) (by decide) (by decide) (by decide) (by decide),
   owner_gate_403_on_owner_mismatch.2.2.2.2.1 baseDb bobId pl1._id pl1
     (by decide) (by decide) (by decide),
   owner_gate_403_on_owner_mismatch.1 baseDb bobId vid1._id (some "New title") none none vid1
     (by decide) (by decide) (by decide) (by decide)⟩

/-- Store without any document. -/
def emptyDb : DB :=
  { users := [], videos := [], playlists := [], subscriptions := [], likes := [] }

/-- C6 evidence: with the `name` field absent from the body (and a valid
`description`), the blank-field check of `createPlaylist` evaluates to
false — `field?.trim() === ""` is `undefined === ""` for an absent field —
so the request is NOT rejected with the 400 "All fields are required"
error; the handler reaches storage and creates a playlist without a name,
changing the store. -/
theorem createPlaylist_absent_field_reaches_storage :
    fieldIsBlank none = false ∧
    (createPlaylist emptyDb alice._id none (some "x") "eeeeeeeeeeeeeeeeeeeeeeee").1 =
      .ok { _id := "eeeeeeeeeeeeeeeeeeeeeeee", name := none, description := some "x",
            owner := alice._id, videos := [] } ∧
    (createPlaylist emptyDb alice._id none (some "x") "eeeeeeeeeeeeeeeeeeeeeeee").2 ≠ emptyDb ∧
    (createPlaylist emptyDb alice._id none (some "x") "eeeeeeeeeeeeeeeeeeeeeeee").2.playlists ≠ [] ∧
    (createPlaylist emptyDb alice._id (some " ") (some "x") "eeeeeeeeeeeeeeeeeeeeeeee").1 =
      .error ⟨400, "All fields are required"⟩ := by
  decide

/-- Every Like contributes zero joined rows for a channel that owns no
videos. -/
theorem likeOwnedRows_eq_zero (db : DB) (c : Oid)
    (hvids : db.videos.filter (fun v => v.owner == c) = []) (l : Like) :
    likeOwnedRows db c l = 0 := by
  unfold likeOwnedRows
  cases hl : l.video with
  | none => simp [hl]
  | some vid =>
    simp only [hl, List.length_eq_zero]
    rw [List.filter_filter]
    rw [List.filter_eq_nil_iff] at hvids
    apply List.filter_eq_nil_iff.mpr
    intro a ha hcontra
    rw [Bool.and_eq_true] at hcontra
    exact hvids a ha hcontra.1

/-- C8: a channel that owns no videos and has no subscribers (and hence
no likes joinable to its videos) gets exactly all-zero stats from
`getChannelStats`, with no error on the empty aggregation results. -/
theorem channelStats_zero_for_empty_channel (db : DB) (c : Oid)
    (hvids : db.videos.filter (fun v => v.owner == c) = [])
    (hsubs : db.subscriptions.filter (fun s => s.channel == c) = []) :
    getChannelStats db c =
      { totalSubscribers := 0, totalVideos := 0, totalViews := 0, totalLikes := 0 } := by
  have hrows : (db.likes.map (likeOwnedRows db c)).sum = 0 := by
    apply List.sum_eq_zero
    intro x hx
    obtain ⟨l, _, rfl⟩ := List.mem_map.mp hx
    exact likeOwnedRows_eq_zero db c hvids l
  simp only [getChannelStats]
  rw [hvids, hsubs, hrows]
  simp

/-- Store in which other channels do have subscribers, likes and videos,
but channel c has none. -/
def statsDb : DB :=
  { baseDb with
    subscriptions :=
      [{ _id := "ffffffffffffffffffffffff", subscriber := bobId,
         channel := alice._id }],
    likes :=
      [{ _id := "abcabcabcabcabcabcabcabc", video := some vid1._id,
         comment := none, tweet := none, likedBy := bobId }] }

/-- Witness for C8 at a concrete store with unrelated activity. -/
theorem channelStats_zero_for_empty_channel_witness :
    statsDb.videos.filter (fun v => v.owner == "cccccccccccccccccccccccc") = [] ∧
    statsDb.subscriptions.filter (fun s => s.channel == "cccccccccccccccccccccccc") = [] ∧
    getChannelStats statsDb "cccccccccccccccccccccccc" =
      { totalSubscribers := 0, totalVideos := 0, totalViews := 0, totalLikes := 0 } :=
  ⟨by decide, by decide,
   channelStats_zero_for_empty_channel statsDb "cccccccccccccccccccccccc"
     (by decide) (by decide)⟩

/-- Saving a video rewrites exactly the stored documents carrying its id. -/
theorem findVideo_saveVideo (db : DB) (u : Video) (i : String) :
    findVideo (saveVideo db u) i =
      (findVideo db i).map (fun w => if w._id == u._id then u else w) := by
  unfold findVideo saveVideo
  apply find?_map_preserves_id
  intro w
  by_cases h : (w._id == u._id) = true
  · rw [if_pos h]
    exact (eq_of_beq h).symm
  · rw [if_neg h]

/-- C9: for a video owned by the caller, `togglePublishStatus` negates the
publish flag, stores the flipped document, and reports a message matching
the new state; a second toggle by the owner returns the original document
and stores the original publish state again. -/
theorem togglePublish_flips_and_restores (db : DB) (caller : Oid) (videoId : String)
    (v : Video) (hvalid : isValidObjectId videoId = true)
    (hfind : findVideo db videoId = some v) (hown : v.owner = caller) :
    togglePublishStatus db caller videoId =
      (.ok ({ v with isPublished := !v.isPublished },
            if !v.isPublished then "Video published successfully!"
            else "Video unpublished successfully!"),
       saveVideo db { v with isPublished := !v.isPublished }) ∧
    (togglePublishStatus (saveVideo db { v with isPublished := !v.isPublished })
        caller videoId).1
      = .ok (v, if v.isPublished then "Video published successfully!"
                else "Video unpublished successfully!") ∧
    findVideo
      (togglePublishStatus (saveVideo db { v with isPublished := !v.isPublished })
        caller videoId).2 videoId = some v := by
  subst hown
  have hfind2 : findVideo (saveVideo db { v with isPublished := !v.isPublished }) videoId
      = some { v with isPublished := !v.isPublished } := by
    rw [findVideo_saveVideo, hfind]
    simp
  have hm1 : ("Video " ++ "published") ++ " successfully!" = "Video published successfully!" :=
    rfl
  have hm2 : ("Video " ++ "unpublished") ++ " successfully!"
      = "Video unpublished successfully!" := rfl
  refine ⟨?_, ?_, ?_⟩
  · cases hb : v.isPublished <;>
      simp [togglePublishStatus, hvalid, hfind, hb, hm1, hm2]
  · cases hb : v.isPublished
    · simp only [hb, Bool.not_false] at hfind2
      simp [togglePublishStatus, hvalid, hfind2, hb, hm1, hm2]
      rw [← hb]
    · simp only [hb, Bool.not_true] at hfind2
      simp [togglePublishStatus, hvalid, hfind2, hb, hm1, hm2]
      rw [← hb]
  · have hsnd : (togglePublishStatus
        (saveVideo db { v with isPublished := !v.isPublished }) v.owner videoId).2
        = saveVideo (saveVideo db { v with isPublished := !v.isPublished }) v := by
      simp [togglePublishStatus, hvalid, hfind2, Bool.not_not]
    rw [hsnd, findVideo_saveVideo, hfind2]
    simp

/-- Witness for C9: the owner toggles a published video twice at a
concrete store. -/
theorem togglePublish_flips_and_restores_witness :
    togglePublishStatus baseDb alice._id vid1._id =
      (.ok ({ vid1 with isPublished := !vid1.isPublished },
            if !vid1.isPublished then "Video published successfully!"
            else "Video unpublished successfully!"),
       saveVideo baseDb { vid1 with isPublished := !vid1.isPublished }) ∧
    (togglePublishStatus (saveVideo baseDb { vid1 with isPublished := !vid1.isPublished })
        alice._id vid1._id).1
      = .ok (vid1, if vid1.isPublished then "Video published successfully!"
                   else "Video unpublished successfully!") ∧
    findVideo
      (togglePublishStatus (saveVideo baseDb { vid1 with isPublished := !vid1.isPublished })
        alice._id vid1._id).2 vid1._id = some vid1 :=
  togglePublish_flips_and_restores baseDb alice._id vid1._id vid1
    (by decide) (by decide) (by decide)

/-- C10: `getVideoById` applies no publish filter and consults no caller
identity (the handler reads none): any existing video with a well-formed
identifier is returned — its publish flag is unconstrained here — and its
stored view counter is incremented. -/
theorem getVideoById_ignores_publish_flag (db : DB) (videoId : String) (v : Video)
    (hvalid : isValidObjectId videoId = true)
    (hfind : findVideo db videoId = some v) :
    (getVideoById db videoId).1 = .ok (enrichOwner db v) ∧
    findVideo (getVideoById db videoId).2 videoId
      = some { v with views := v.views + 1 } := by
  have hfind' : (db.videos.filter (fun w => w._id == videoId)).head? = some v := by
    rw [head?_filter_eq_find?]
    exact hfind
  cases hfl : db.videos.filter (fun w => w._id == videoId) with
  | nil => rw [hfl] at hfind'; exact absurd hfind' (by simp)
  | cons a rest =>
    rw [hfl] at hfind'
    simp only [List.head?_cons, Option.some.injEq] at hfind'
    subst hfind'
    have hpred : (a._id == videoId) = true := by
      have hm : a ∈ db.videos.filter (fun w => w._id == videoId) := by
        rw [hfl]; exact List.mem_cons_self _ _
      exact (List.mem_filter.mp hm).2
    constructor
    · simp [getVideoById, hvalid, hfl]
    · have hsnd : (getVideoById db videoId).2
          = { db with videos := db.videos.map (fun w =>
              if w._id == videoId then { w with views := w.views + 1 } else w) } := by
        simp [getVideoById, hvalid, hfl]
      rw [hsnd]
      show (db.videos.map (fun w =>
          if w._id == videoId then { w with views := w.views + 1 } else w)).find?
            (fun w => w._id == videoId) = some { a with views := a.views + 1 }
      rw [find?_map_preserves_id]
      · rw [show db.videos.find? (fun w => w._id == videoId) = some a from hfind]
        simp only [Option.map_some']
        rw [if_pos hpred]
      · intro w
        by_cases h : (w._id == videoId) = true <;> simp [h]

/-- Witness for C10: the unpublished `vid2` is fetched by id. -/
theorem getVideoById_ignores_publish_flag_witness :
    vid2.isPublished = false ∧
    findVideo baseDb vid2._id = some vid2 ∧
    (getVideoById baseDb vid2._id).1 = .ok (enrichOwner baseDb vid2) ∧
    findVideo (getVideoById baseDb vid2._id).2 vid2._id
      = some { vid2 with views := vid2.views + 1 } :=
  ⟨by decide, by decide,
   (getVideoById_ignores_publish_flag baseDb vid2._id vid2 (by decide) (by decide)).1,
   (getVideoById_ignores_publish_flag baseDb vid2._id vid2 (by decide) (by decide)).2⟩

/-- Characterization of a successful `getVideoById`: response carries the
looked-up document, the store gets the by-id view increment. -/
theorem getVideoById_success (db : DB) (videoId : String) (v : Video)
    (hvalid : isValidObjectId videoId = true)
    (hfind : findVideo db videoId = some v) :
    getVideoById db videoId =
      (.ok (enrichOwner db v),
       { db with videos := db.videos.map (fun w =>
           if w._id == videoId then { w with views := w.views + 1 } else w) }) := by
  have hfind' : (db.videos.filter (fun w => w._id == videoId)).head? = some v := by
    rw [head?_filter_eq_find?]
    exact hfind
  cases hfl : db.videos.filter (fun w => w._id == videoId) with
  | nil => rw [hfl] at hfind'; exact absurd hfind' (by simp)
  | cons a rest =>
    rw [hfl] at hfind'
    simp only [List.head?_cons, Option.some.injEq] at hfind'
    subst hfind'
    simp [getVideoById, hvalid, hfl]

/-- The by-id increment map bumps the found document's view counter. -/
theorem findVideo_incMap (l : List Video) (videoId : String) (v : Video)
    (hfind : l.find? (fun w => w._id == videoId) = some v) :
    (l.map (fun w => if w._id == videoId then { w with views := w.views + 1 } else w)).find?
      (fun w => w._id == videoId) = some { v with views := v.views + 1 } := by
  rw [find?_map_preserves_id]
  · rw [hfind]
    simp only [Option.map_some']
    rw [if_pos (List.find?_some hfind)]
  · intro w
    by_cases h : (w._id == videoId) = true <;> simp [h]

/-- Monotonicity of the view counter under any id-preserving,
views-non-decreasing rewrite of the collection. -/
theorem views_mono_map (l : List Video) (f : Video → Video)
    (hid : ∀ w, (f w)._id = w._id) (hv : ∀ w, w.views ≤ (f w).views)
    (i : String) (v v' : Video)
    (h1 : l.find? (fun w => w._id == i) = some v)
    (h2 : (l.map f).find? (fun w => w._id == i) = some v') : v.views ≤ v'.views := by
  rw [find?_map_preserves_id f hid, h1] at h2
  simp only [Option.map_some', Option.some.injEq] at h2
  subst h2
  exact hv v

/-- Erasing the document with one id cannot change which document another
by-id lookup finds, when stored ids are distinct. -/
theorem find?_of_find?_eraseP (l : List Video) (t i : String) (v' : Video)
    (hnd : (l.map Video._id).Nodup)
    (h : (l.eraseP (fun w => w._id == t)).find? (fun w => w._id == i) = some v') :
    l.find? (fun w => w._id == i) = some v' := by
  induction l with
  | nil => simpa using h
  | cons a l' ih =>
    rw [List.map_cons, List.nodup_cons] at hnd
    obtain ⟨ha, hnd'⟩ := hnd
    by_cases hq : (a._id == t) = true
    · rw [@List.eraseP_cons_of_pos _ a l' (fun w => w._id == t) hq] at h
      have hv'mem := List.mem_of_find?_eq_some h
      have hv'p := List.find?_some h
      by_cases hpa : (a._id == i) = true
      · exfalso
        have hmem : v'._id ∈ l'.map Video._id := List.mem_map_of_mem Video._id hv'mem
        rw [show v'._id = a._id from (eq_of_beq hv'p).trans (eq_of_beq hpa).symm] at hmem
        exact ha hmem
      · rw [List.find?_cons_of_neg (p := fun w => w._id == i) (a := a) l' hpa]
        exact h
    · rw [@List.eraseP_cons_of_neg _ a l' (fun w => w._id == t) hq] at h
      by_cases hpa : (a._id == i) = true
      · rw [List.find?_cons_of_pos (p := fun w => w._id == i) (a := a) _ hpa] at h ⊢
        exact h
      · rw [List.find?_cons_of_neg (p := fun w => w._id == i) (a := a) _ hpa] at h ⊢
        exact ih hnd' h

/-- A by-id video lookup only inspects the videos collection. -/
theorem findVideo_congr (db1 db2 : DB) (h : db1.videos = db2.videos) (i : String) :
    findVideo db1 i = findVideo db2 i := by
  unfold findVideo
  rw [h]

/-- The playlist-create handler never touches the videos collection. -/
theorem videos_createPlaylist (db : DB) (c : Oid) (n d : Option String) (newId : Oid) :
    (createPlaylist db c n d newId).2.videos = db.videos := by
  unfold createPlaylist
  repeat' split
  all_goals rfl

/-- The playlist-update handler never touches the videos collection. -/
theorem videos_updatePlaylist (db : DB) (c : Oid) (pid : String) (n d : Option String) :
    (updatePlaylist db c pid n d).2.videos = db.videos := by
  unfold updatePlaylist
  repeat' split
  all_goals rfl

/-- The playlist-delete handler never touches the videos collection. -/
theorem videos_deletePlaylist (db : DB) (c : Oid) (pid : String) :
    (deletePlaylist db c pid).2.videos = db.videos := by
  unfold deletePlaylist
  repeat' split
  all_goals rfl

/-- The playlist add-video handler never touches the videos collection. -/
theorem videos_addVideoToPlaylist (db : DB) (c : Oid) (pid vid : String) :
    (addVideoToPlaylist db c pid vid).2.videos = db.videos := by
  unfold addVideoToPlaylist
  repeat' split
  all_goals rfl

/-- The playlist remove-video handler never touches the videos
collection. -/
theorem videos_removeVideoFromPlaylist (db : DB) (c : Oid) (pid vid : String) :
    (removeVideoFromPlaylist db c pid vid).2.videos = db.videos := by
  unfold removeVideoFromPlaylist
  repeat' split
  all_goals rfl

/-- Both lookups finding against the same store find the same counter. -/
theorem views_eq_of_unchanged (db : DB) (i : String) (v v' : Video)
    (h1 : findVideo db i = some v) (h2 : findVideo db i = some v') :
    v.views ≤ v'.views := by
  rw [h1] at h2
  simp only [Option.some.injEq] at h2
  subst h2
  exact Nat.le_refl _

/-- C7: a successful `getVideoById` call succeeds with the looked-up
document, bumps exactly that video's stored view counter by 1 and keeps
every other video document unchanged; and across every modelled operation
the stored view counter of a video (tracked by id, ids assumed distinct as
MongoDB guarantees) never decreases. -/
theorem getVideoById_increments_views_once :
    (∀ (db : DB) (videoId : String) (v : Video),
      isValidObjectId videoId = true →
      findVideo db videoId = some v →
      (getVideoById db videoId).1 = .ok (enrichOwner db v) ∧
      findVideo (getVideoById db videoId).2 videoId
        = some { v with views := v.views + 1 } ∧
      ∀ w ∈ db.videos, w._id ≠ videoId → w ∈ (getVideoById db videoId).2.videos) ∧
    (∀ (op : Op) (db : DB) (i : String) (v v' : Video),
      (db.videos.map Video._id).Nodup →
      findVideo db i = some v →
      findVideo (applyOp op db) i = some v' →
      v.views ≤ v'.views) := by
  constructor
  · intro db videoId v hvalid hfind
    rw [getVideoById_success db videoId v hvalid hfind]
    refine ⟨rfl, ?_, ?_⟩
    · exact findVideo_incMap db.videos videoId v hfind
    · intro w hw hne
      show w ∈ db.videos.map (fun u =>
        if u._id == videoId then { u with views := u.views + 1 } else u)
      have h : (if w._id == videoId then { w with views := w.views + 1 } else w) = w := by
        rw [if_neg]
        simp [hne]
      exact h ▸ List.mem_map_of_mem _ hw
  · intro op db i v v' hnd h1 h2
    cases op with
    | opGetAllVideos q =>
      simp only [applyOp] at h2
      exact views_eq_of_unchanged db i v v' h1 h2
    | opGetChannelStats c =>
      simp only [applyOp] at h2
      exact views_eq_of_unchanged db i v v' h1 h2
    | opGetChannelVideos c p l sb st =>
      simp only [applyOp] at h2
      exact views_eq_of_unchanged db i v v' h1 h2
    | opCreatePlaylist c n d newId =>
      simp only [applyOp] at h2
      rw [findVideo_congr ((createPlaylist db c n d newId).2) db
        (videos_createPlaylist db c n d newId) i] at h2
      exact views_eq_of_unchanged db i v v' h1 h2
    | opUpdatePlaylist c pid n d =>
      simp only [applyOp] at h2
      rw [findVideo_congr ((updatePlaylist db c pid n d).2) db
        (videos_updatePlaylist db c pid n d) i] at h2
      exact views_eq_of_unchanged db i v v' h1 h2
    | opDeletePlaylist c pid =>
      simp only [applyOp] at h2
      rw [findVideo_congr ((deletePlaylist db c pid).2) db
        (videos_deletePlaylist db c pid) i] at h2
      exact views_eq_of_unchanged db i v v' h1 h2
    | opAddVideoToPlaylist c pid vid =>
      simp only [applyOp] at h2
      rw [findVideo_congr ((addVideoToPlaylist db c pid vid).2) db
        (videos_addVideoToPlaylist db c pid vid) i] at h2
      exact views_eq_of_unchanged db i v v' h1 h2
    | opRemoveVideoFromPlaylist c pid vid =>
      simp only [applyOp] at h2
      rw [findVideo_congr ((removeVideoFromPlaylist db c pid vid).2) db
        (videos_removeVideoFromPlaylist db c pid vid) i] at h2
      exact views_eq_of_unchanged db i v v' h1 h2
    | opGetVideoById videoId =>
      simp only [applyOp] at h2
      unfold getVideoById at h2
      split at h2
      · exact views_eq_of_unchanged db i v v' h1 h2
      · split at h2
        · exact views_eq_of_unchanged db i v v' h1 h2
        · exact views_mono_map db.videos _
            (fun w => by by_cases hh : (w._id == videoId) = true <;> simp [hh])
            (fun w => by by_cases hh : (w._id == videoId) = true <;> simp [hh])
            i v v' h1 h2
    | opUpdateVideo c vid t d f =>
      simp only [applyOp] at h2
      unfold updateVideo at h2
      split at h2
      · exact views_eq_of_unchanged db i v v' h1 h2
      · split at h2
        · exact views_eq_of_unchanged db i v v' h1 h2
        · split at h2
          · exact views_eq_of_unchanged db i v v' h1 h2
          · split at h2
            · exact views_eq_of_unchanged db i v v' h1 h2
            · dsimp only at h2
              split at h2
              · exact views_eq_of_unchanged db i v v' h1 h2
              · exact views_mono_map db.videos _
                  (fun w => by split <;> rfl)
                  (fun w => by split <;> exact Nat.le_refl _)
                  i v v' h1 h2
    | opDeleteVideo c vid =>
      simp only [applyOp] at h2
      unfold deleteVideo at h2
      split at h2
      · exact views_eq_of_unchanged db i v v' h1 h2
      · split at h2
        · exact views_eq_of_unchanged db i v v' h1 h2
        · split at h2
          · exact views_eq_of_unchanged db i v v' h1 h2
          · have h2' : (db.videos.eraseP (fun w => w._id == vid)).find?
                (fun w => w._id == i) = some v' := h2
            have hbefore := find?_of_find?_eraseP db.videos vid i v' hnd h2'
            exact views_eq_of_unchanged db i v v' h1 hbefore
    | opTogglePublishStatus c vid =>
      simp only [applyOp] at h2
      unfold togglePublishStatus at h2
      split at h2
      · exact views_eq_of_unchanged db i v v' h1 h2
      · split at h2
        · exact views_eq_of_unchanged db i v v' h1 h2
        · next video heq =>
          split at h2
          · exact views_eq_of_unchanged db i v v' h1 h2
          · rw [findVideo_saveVideo, h1] at h2
            simp only [Option.map_some', Option.some.injEq] at h2
            subst h2
            by_cases hc :
                (v._id == ({ video with isPublished := !video.isPublished } : Video)._id)
                  = true
            · have h1f : db.videos.find? (fun w => w._id == i) = some v := h1
              have heqf : db.videos.find? (fun w => w._id == vid) = some video := heq
              have h1p : v._id = i :=
                eq_of_beq (List.find?_some (p := fun w : Video => w._id == i) h1f)
              have heqp : video._id = vid :=
                eq_of_beq (List.find?_some (p := fun w : Video => w._id == vid) heqf)
              have hcv : v._id = video._id := eq_of_beq hc
              have hiv : i = vid := by rw [← h1p, hcv, heqp]
              rw [if_pos hc]
              have hvv : some v = some video := by rw [← h1, hiv, heq]
              simp only [Option.some.injEq] at hvv
              rw [hvv]
            · rw [if_neg hc]

/-- Witness for C7: fetching `vid1` (5 views) stores it with 6 views, and
the monotonicity instance at that very operation. -/
theorem getVideoById_increments_views_once_witness :
    (getVideoById baseDb vid1._id).1 = .ok (enrichOwner baseDb vid1) ∧
    findVideo (getVideoById baseDb vid1._id).2 vid1._id
      = some { vid1 with views := vid1.views + 1 } ∧
    vid1.views ≤ ({ vid1 with views := vid1.views + 1 } : Video).views :=
  ⟨(getVideoById_increments_views_once.1 baseDb vid1._id vid1 (by decide) (by decide)).1,
   (getVideoById_increments_views_once.1 baseDb vid1._id vid1 (by decide) (by decide)).2.1,
   getVideoById_increments_views_once.2 (.opGetVideoById vid1._id) baseDb vid1._id vid1
     { vid1 with views := vid1.views + 1 } (by decide) (by decide) (by decide)⟩
